import Mathlib

/-!
Verification of the GradCompass interview session protocol.

This file shallowly embeds the interview service
(`app/services/interview_service.py`), the websocket router
(`app/routers/interview.py`) and the profile eligibility gate
(`app/utils/profile.py`).  External text-generation calls (the LLM) are
nondeterministic; they are modelled as oracle functions gathered in an
`Engine` record, one field per distinct call site, each returning
`Except String String` (`Except.error` models a raised exception).  The
prompt strings built by the Python code are pure formatting of the
inputs that the oracle fields receive directly, so prompt construction
is absorbed into the oracle arguments.
-/

/-- One question/answer pair of the transcript
(the dicts `\x7b"q": ..., "a": ...\x7d` in the Python state). -/
structure QA where
  q : String
  a : String
deriving DecidableEq, Repr

/-- LangChain message values held in memory: `AIMessage`, `HumanMessage`,
or any other object (whose `str()` rendering is kept). -/
inductive LCMessage where
  | ai (content : String)
  | human (content : String)
  | other (rendered : String)
deriving DecidableEq, Repr

/-- The flat storable form of a message: the dict
`\x7b"type": ..., "content": ...\x7d` produced by `_serialize_message`. -/
structure MsgDict where
  type : String
  content : String
deriving DecidableEq, Repr

/-- Embeds `_serialize_message` (interview_service.py lines 158-165). -/
def serializeMessage : LCMessage → MsgDict
  | LCMessage.ai c => ⟨"ai", c⟩
  | LCMessage.human c => ⟨"human", c⟩
  | LCMessage.other s => ⟨"unknown", s⟩

/-- Embeds `_deserialize_message` (interview_service.py lines 167-174);
an unrecognised type tag falls back to a human message. -/
def deserializeMessage (d : MsgDict) : LCMessage :=
  if d.type = "ai" then LCMessage.ai d.content
  else if d.type = "human" then LCMessage.human d.content
  else LCMessage.human d.content

/-- The message shapes the service ever stores: it only ever appends
`serializeMessage` of an `AIMessage` (lines 197, 248) or of a
`HumanMessage` (line 215), never of another object. -/
def isStoredMessageForm : LCMessage → Bool
  | LCMessage.ai _ => true
  | LCMessage.human _ => true
  | LCMessage.other _ => false

/-- The turn state (`VisaInterviewState`, stored with messages already in
their serialized dict form, as the service keeps them in
`current_state`). -/
structure InterviewState where
  messages : List MsgDict
  transcript : List QA
  current_question : String
  summary : String
  outcome : String
  done : Bool
deriving DecidableEq, Repr

/-- The external text-generation capability, one oracle per call site of
`self.llm.invoke`: next-question generation (`_generate_question`),
summary generation (`_generate_summary`), the continuation verdict
(inside `_should_continue_interview`, receiving the summary and the
question count that the prompt is formatted from), and the final
decision (`_generate_final_decision`).  `Except.error` models a raised
exception. -/
structure Engine where
  question : List QA → Except String String
  summaryLLM : String → Except String String
  verdict : String → Nat → Except String String
  final : String → Except String String

/-- The conversation rendering `"Q: ...\nA: ..."` joined by newlines used
by the summary prompt (line 89). -/
def renderConvo (transcript : List QA) : String :=
  String.intercalate "\n" (transcript.map (fun p => "Q: " ++ p.q ++ "\nA: " ++ p.a))

/-- Embeds `_generate_summary` (lines 84-92): an empty transcript yields
a fixed string without any LLM call, otherwise the summary oracle is
consulted on the rendered conversation. -/
def generateSummary (eng : Engine) (transcript : List QA) : Except String String :=
  if transcript.isEmpty then Except.ok "No conversation yet."
  else eng.summaryLLM (renderConvo transcript)

/-- Embeds `_should_continue_interview` (lines 57-82).  Returns
`Except.ok true` to continue, `Except.ok false` to stop; an uncaught
error from the summary step propagates.  The verdict call sits inside
the `try`: any error there yields continue.  The verdict reply is
stripped, lowercased and tested for the prefix `yes`. -/
def shouldContinueInterview (eng : Engine) (transcript : List QA) : Except String Bool :=
  if 5 ≤ transcript.length then Except.ok false
  else if transcript.length < 3 then Except.ok true
  else
    (generateSummary eng transcript).bind (fun summary =>
      match eng.verdict summary transcript.length with
      | Except.ok content => Except.ok (!(content.trim.toLower.startsWith "yes"))
      | Except.error _ => Except.ok true)

/-- Embeds `_generate_question` (lines 29-55): one LLM call whose prompt
is formatted from the profile and the transcript; the profile part does
not vary within a session, so the oracle receives the transcript. -/
def generateQuestion (eng : Engine) (transcript : List QA) : Except String String :=
  eng.question transcript

/-- Embeds `_generate_final_decision` (lines 94-105): summarize, then one
LLM call on the summary. -/
def generateFinalDecision (eng : Engine) (transcript : List QA) : Except String String :=
  (generateSummary eng transcript).bind (fun summary => eng.final summary)

/-- The dict returned by `process_response` (keys question / state /
done / is_complete). -/
structure TurnOutcome where
  question : String
  state : InterviewState
  done : Bool
  is_complete : Bool
deriving DecidableEq, Repr

/-- The state mutation at the top of `process_response` (lines 207-215):
append the (current question, answer) pair to the transcript and the
serialized human message to the message list. -/
def appendTurn (st : InterviewState) (a : String) : InterviewState :=
  { st with
    transcript := st.transcript ++ [⟨st.current_question, a⟩],
    messages := st.messages ++ [serializeMessage (LCMessage.human a)] }

/-- The stop branch of `process_response` (lines 229-240): record the
final decision as outcome, set done, reply with the decision. -/
def finishTurn (st1 : InterviewState) (fd : String) : TurnOutcome :=
  ⟨fd, { st1 with outcome := fd, done := true }, true, true⟩

/-- The continue branch of `process_response` (lines 241-255): install
the next question and append its serialized AI message. -/
def nextTurn (st1 : InterviewState) (nq : String) : TurnOutcome :=
  ⟨nq, { st1 with
          current_question := nq,
          messages := st1.messages ++ [serializeMessage (LCMessage.ai nq)] }, false, false⟩

/-- Embeds `process_response` (lines 205-255).  The Python code passes a
rehydrated copy `state_for_check` whose only fields consulted downstream
are the transcript, which is what the embedded steps receive. -/
def processResponse (eng : Engine) (userResponse : String) (st : InterviewState) :
    Except String TurnOutcome :=
  let st1 := appendTurn st userResponse
  (shouldContinueInterview eng st1.transcript).bind (fun sc =>
    if !sc then
      (generateFinalDecision eng st1.transcript).map (finishTurn st1)
    else
      (generateQuestion eng st1.transcript).map (nextTurn st1))

/-- The spec predicate: the verdict text begins with an affirmative token,
compared case-insensitively (leading/trailing whitespace delimits the
token). -/
def beginsWithAffirmativeToken (s : String) : Bool :=
  s.trim.toLower.startsWith "yes"

/-!
Router layer (`app/routers/interview.py`).  The websocket handler keeps
a session record and an append-only message log in the database; both
are modelled explicitly.  Each `save_message` call commits immediately
(lines 36-46), which the embedding reflects by threading the log
through every step in program order.
-/

/-- The service reply shape the router consumes
(`response.content` / `response.state` / `response.is_complete`). -/
structure ServiceReply where
  content : String
  state : InterviewState
  is_complete : Bool
deriving DecidableEq, Repr

/-- Embeds the service entry `start_interview` (interview_service.py
lines 176-203): build the empty initial state, generate the first
question, install it and append its serialized AI message. -/
def startInterview (eng : Engine) : Except String ServiceReply :=
  (generateQuestion eng []).map (fun q =>
    ⟨q,
      { messages := [serializeMessage (LCMessage.ai q)],
        transcript := [],
        current_question := q,
        summary := "",
        outcome := "",
        done := false },
      false⟩)

/-- Modelled from the spec: the router invokes a service method
`continue_interview(profile, state, answer)` that is absent from the
service module in the source tree; the spec identifies this turn step
with the Orchestrator `advance` operation (spec section 4.1), whose
behaviour is the `process_response` step of the service, with the reply
exposed through content / state / is_complete attributes. -/
def continueInterview (eng : Engine) (userResponse : String) (st : InterviewState) :
    Except String ServiceReply :=
  (processResponse eng userResponse st).map (fun r => ⟨r.question, r.state, r.is_complete⟩)

/-- The mutable session record (status, opaque turn state blob, final
outcome) of `InterviewSession`. -/
structure SessionRec where
  status : String
  session_state : Option InterviewState
  final_outcome : Option String
deriving DecidableEq, Repr

/-- The durable store visible to the handler: the append-only message
log (pairs of message_type and content, in append order) and the
session record. -/
structure DB where
  messages : List (String × String)
  session : SessionRec
deriving DecidableEq, Repr

/-- Embeds the `user_response` branch of the websocket handler
(interview.py lines 356-414).  Empty content is rejected first (the
source test `not content.strip()` holds exactly when every character of
the content is whitespace); then
`save_message` commits the response message; then the service turn step
runs; any exception from it reaches the `except` and replies an error
frame (with the response message already committed).  On success the
session state commit, then the completion or question branch run in
program order.  The handler never consults `db.session.status`.  A
missing state blob (`session.session_state or \x7b\x7d` feeding an empty
dict into `process_response`) raises a key lookup error handled by the
same `except`, modelled by the `none` branch. -/
def handleUserResponse (eng : Engine) (db : DB) (content : String) :
    DB × List (String × String) :=
  if content.data.all Char.isWhitespace then
    (db, [("error", "Please provide a response.")])
  else
    let db1 : DB := { db with messages := db.messages ++ [("response", content)] }
    match db.session.session_state with
    | none => (db1, [("error", "Error processing response: KeyError transcript")])
    | some st =>
      match continueInterview eng content st with
      | Except.error e => (db1, [("error", "Error processing response: " ++ e)])
      | Except.ok r =>
        let db2 : DB :=
          { db1 with session := { db1.session with session_state := some r.state } }
        if r.is_complete then
          ({ db2 with
              messages := db2.messages ++ [("final_decision", r.content)],
              session := { db2.session with
                            status := "completed",
                            final_outcome := some r.content } },
            [("final_decision", r.content)])
        else
          ({ db2 with messages := db2.messages ++ [("question", r.content)] },
            [("question", r.content)])

/-- Embeds the `start_interview` branch of the websocket handler
(interview.py lines 319-354): with existing turn state the service turn
step is invoked with an empty user response, otherwise the service
start step runs; on success the question message is saved, the session
state committed, and the question frame sent; an exception replies an
error frame with nothing saved in this branch. -/
def handleStartInterview (eng : Engine) (db : DB) : DB × List (String × String) :=
  let served : Except String ServiceReply :=
    match db.session.session_state with
    | some st => continueInterview eng "" st
    | none => startInterview eng
  match served with
  | Except.error e => (db, [("error", "Failed to start interview: " ++ e)])
  | Except.ok r =>
    ({ db with
        messages := db.messages ++ [("question", r.content)],
        session := { db.session with session_state := some r.state } },
      [("question", r.content)])

/-- The retry loop body of `verify_session_with_retry` (interview.py
lines 48-70), indexed by the remaining number of attempts.  The store
oracle gives the query result at each attempt index.  Returns the found
session (if any) together with the list of sleep delays performed, in
seconds as exact rationals.  No sleep follows the last attempt; after a
sleep the delay is multiplied by 1.5. -/
def verifyAux (store : Nat → Option SessionRec) :
    Nat → Nat → ℚ → Option SessionRec × List ℚ
  | 0, _, _ => (none, [])
  | fuel + 1, attempt, delay =>
    match store attempt with
    | some s => (some s, [])
    | none =>
      match fuel with
      | 0 => (none, [])
      | f + 1 =>
        let rest := verifyAux store (f + 1) (attempt + 1) (delay * (3 / 2))
        (rest.1, delay :: rest.2)

/-- Embeds `verify_session_with_retry` at its websocket call site
(line 232), which uses the default arguments max_retries = 3 and
delay = 0.5. -/
def verifySessionWithRetry (store : Nat → Option SessionRec) :
    Option SessionRec × List ℚ :=
  verifyAux store 3 0 (1 / 2)

/-- What the connection-open phase does with the retry result. -/
structure ResolveOutcome where
  frames : List (String × String)
  closeCode : Option Nat
  proceeded : Bool
deriving DecidableEq, Repr

/-- Embeds the session-resolution step of the websocket handler
(interview.py lines 231-244): if the retried lookup finds nothing, an
error frame is sent, the socket is closed with the distinct code 4004,
and the handler returns; otherwise it proceeds. -/
def wsResolveSession (store : Nat → Option SessionRec) :
    ResolveOutcome × Option SessionRec :=
  match (verifySessionWithRetry store).1 with
  | none =>
    (⟨[("error", "Interview session not found")], some 4004, false⟩, none)
  | some s => (⟨[], none, true⟩, some s)

/-!
Profile eligibility gate (`app/utils/profile.py`).  Only the fields the
gate reads through `getattr` are modelled.  Scores participate in a
Python truthiness test, so they keep their numeric type.
-/

/-- The profile fields consulted by the gate. -/
structure UserProfile where
  gpa : Option ℚ
  target_field : Option String
  preferred_countries : Option (List String)
  target_degree : Option String
  budget_range : Option String
  gre_score : Option ℚ
  toefl_score : Option ℚ
  ielts_score : Option ℚ
deriving DecidableEq, Repr

/-- A work experience record; the gate only consults the length of the
list. -/
structure WorkExperience where
  company_name : String
  role : String
deriving DecidableEq, Repr

/-- `getattr(profile, field) is None` for the field names the
requirements table can produce; other names would raise AttributeError
in the source and are unreachable from that table. -/
def getattrIsNone (p : UserProfile) : String → Bool
  | "gpa" => p.gpa.isNone
  | "target_field" => p.target_field.isNone
  | "preferred_countries" => p.preferred_countries.isNone
  | "target_degree" => p.target_degree.isNone
  | "budget_range" => p.budget_range.isNone
  | _ => false

/-- Python truthiness of an optional score: None and 0 are falsy. -/
def truthyScore : Option ℚ → Bool
  | none => false
  | some x => decide (x ≠ 0)

/-- Embeds `get_profile_requirements_for_agent` (profile.py lines
64-76): the dict lookup with default `[]`. -/
def getProfileRequirementsForAgent (agentType : String) : List String :=
  if agentType = "university_matcher" then
    ["gpa", "target_field", "preferred_countries", "target_degree"]
  else if agentType = "document_helper" then
    ["work_experiences", "target_field", "target_degree"]
  else if agentType = "exam_planner" then
    ["gre_score", "toefl_score", "ielts_score"]
  else if agentType = "finance_planner" then
    ["budget_range", "preferred_countries"]
  else if agentType = "visa_assistant" then
    ["preferred_countries", "target_degree"]
  else []

/-- `field.replace("_", " ").title()` for the ASCII field names used
here: split on underscore, capitalize each word. -/
def pyTitleLabel (s : String) : String :=
  String.intercalate " " ((s.splitOn "_").map (fun w =>
    match w.data with
    | [] => ""
    | c :: cs => String.mk (c.toUpper :: cs.map Char.toLower)))

/-- The requirement-checking loop of `check_agent_profile_requirements`
(profile.py lines 85-97), accumulating missing-requirement labels; in
the test-score branch with agent exam_planner the loop breaks after the
single combined check, and with any other agent that branch neither
appends nor breaks. -/
def checkRequiredFields (p : UserProfile) (workExps : List WorkExperience)
    (agentType : String) : List String → List String
  | [] => []
  | field :: rest =>
    if field = "work_experiences" then
      (if workExps.length = 0 then ["At least one work experience"] else [])
        ++ checkRequiredFields p workExps agentType rest
    else if field = "gre_score" ∨ field = "toefl_score" ∨ field = "ielts_score" then
      if agentType = "exam_planner" then
        if !(truthyScore p.gre_score || truthyScore p.toefl_score
              || truthyScore p.ielts_score) then
          ["At least one test score"]
        else []
      else checkRequiredFields p workExps agentType rest
    else
      (if getattrIsNone p field then [pyTitleLabel field] else [])
        ++ checkRequiredFields p workExps agentType rest

/-- The dict returned by the gate. -/
structure RequirementsCheck where
  requirements_met : Bool
  missing_requirements : List String
deriving DecidableEq, Repr

/-- Embeds `check_agent_profile_requirements` (profile.py lines
78-102). -/
def checkAgentProfileRequirements (p : UserProfile)
    (workExps : List WorkExperience) (agentType : String) : RequirementsCheck :=
  let missing := checkRequiredFields p workExps agentType
    (getProfileRequirementsForAgent agentType)
  ⟨missing.length = 0, missing⟩

/-!
Concrete oracles and states used by the witnesses.
-/

/-- An engine whose calls all succeed with fixed texts. -/
def engOracleA : Engine :=
  ⟨fun _ => Except.ok "Q next",
   fun _ => Except.ok "summary text",
   fun _ _ => Except.ok "NO",
   fun _ => Except.ok "APPROVED"⟩

/-- An engine whose continuation-verdict call raises. -/
def engVerdictErr : Engine :=
  { engOracleA with verdict := fun _ _ => Except.error "GenerationError timeout" }

/-- A state with four completed turns and a pending fifth question. -/
def stateFour : InterviewState :=
  { messages := [],
    transcript := [⟨"Q1", "A1"⟩, ⟨"Q2", "A2"⟩, ⟨"Q3", "A3"⟩, ⟨"Q4", "A4"⟩],
    current_question := "Q5",
    summary := "", outcome := "", done := false }

/-- A state with one completed turn and a pending second question. -/
def stateOne : InterviewState :=
  { messages := [],
    transcript := [⟨"Q1", "A1"⟩],
    current_question := "Q2",
    summary := "", outcome := "", done := false }

/-- A state with two completed turns and a pending third question. -/
def stateTwo : InterviewState :=
  { messages := [],
    transcript := [⟨"Q1", "A1"⟩, ⟨"Q2", "A2"⟩],
    current_question := "Q3",
    summary := "", outcome := "", done := false }

/-!
Claim theorems.
-/

/-- C1: whenever the transcript length after appending the current
question/answer pair is at least 5, the continuation check returns stop
for every engine (so no verdict call is consulted), the turn runs the
final-decision step, and the turn result does not depend on the verdict
oracle at all. -/
theorem interview_ceiling_terminates (eng : Engine)
    (v w : String → Nat → Except String String)
    (st : InterviewState) (a : String)
    (h : 5 ≤ st.transcript.length + 1) :
    shouldContinueInterview eng (appendTurn st a).transcript = Except.ok false ∧
    processResponse eng a st =
      (generateFinalDecision eng (appendTurn st a).transcript).map
        (finishTurn (appendTurn st a)) ∧
    processResponse { eng with verdict := v } a st =
      processResponse { eng with verdict := w } a st := by
  have hlen : (appendTurn st a).transcript.length = st.transcript.length + 1 := by
    simp [appendTurn]
  have h5 : 5 ≤ (appendTurn st a).transcript.length := by omega
  have hsc : ∀ e : Engine,
      shouldContinueInterview e (appendTurn st a).transcript = Except.ok false := by
    intro e
    unfold shouldContinueInterview
    rw [if_pos h5]
  refine ⟨hsc eng, ?_, ?_⟩
  · simp [processResponse, hsc, Except.bind]
  · simp [processResponse, hsc, Except.bind, generateFinalDecision, generateSummary]

/-- C1 witness: the theorem applied at a concrete four-turn state. -/
theorem interview_ceiling_terminates_witness :
    5 ≤ stateFour.transcript.length + 1 ∧
    (shouldContinueInterview engOracleA (appendTurn stateFour "A5").transcript
        = Except.ok false ∧
      processResponse engOracleA "A5" stateFour =
        (generateFinalDecision engOracleA (appendTurn stateFour "A5").transcript).map
          (finishTurn (appendTurn stateFour "A5")) ∧
      processResponse { engOracleA with verdict := fun _ _ => Except.ok "YES" } "A5" stateFour =
        processResponse { engOracleA with verdict := fun _ _ => Except.error "boom" } "A5"
          stateFour) :=
  ⟨by decide,
    interview_ceiling_terminates engOracleA (fun _ _ => Except.ok "YES")
      (fun _ _ => Except.error "boom") stateFour "A5" (by decide)⟩

/-- C2: whenever the transcript length after appending the current
question/answer pair is below 3, the continuation check returns
continue for every engine without any verdict call, the turn runs the
question-generation step, every successful turn result is not complete,
and the result does not depend on the verdict oracle. -/
theorem interview_floor_continues (eng : Engine)
    (v w : String → Nat → Except String String)
    (st : InterviewState) (a : String)
    (h : st.transcript.length + 1 < 3) :
    shouldContinueInterview eng (appendTurn st a).transcript = Except.ok true ∧
    processResponse eng a st =
      (generateQuestion eng (appendTurn st a).transcript).map
        (nextTurn (appendTurn st a)) ∧
    (∀ r, processResponse eng a st = Except.ok r →
      r.is_complete = false ∧ r.done = false) ∧
    processResponse { eng with verdict := v } a st =
      processResponse { eng with verdict := w } a st := by
  have hlen : (appendTurn st a).transcript.length = st.transcript.length + 1 := by
    simp [appendTurn]
  have h5 : ¬ (5 ≤ (appendTurn st a).transcript.length) := by omega
  have h3 : (appendTurn st a).transcript.length < 3 := by omega
  have hsc : ∀ e : Engine,
      shouldContinueInterview e (appendTurn st a).transcript = Except.ok true := by
    intro e
    unfold shouldContinueInterview
    rw [if_neg h5, if_pos h3]
  have hpr : processResponse eng a st =
      (generateQuestion eng (appendTurn st a).transcript).map
        (nextTurn (appendTurn st a)) := by
    simp [processResponse, hsc, Except.bind]
  refine ⟨hsc eng, hpr, ?_, ?_⟩
  · intro r hr
    rw [hpr] at hr
    cases hq : generateQuestion eng (appendTurn st a).transcript with
    | error e => rw [hq] at hr; simp [Except.map] at hr
    | ok q =>
      rw [hq] at hr
      simp [Except.map] at hr
      rw [← hr]
      exact ⟨rfl, rfl⟩
  · simp [processResponse, hsc, Except.bind, generateQuestion]

/-- C2 witness: the theorem applied at a concrete one-turn state. -/
theorem interview_floor_continues_witness :
    stateOne.transcript.length + 1 < 3 ∧
    (shouldContinueInterview engOracleA (appendTurn stateOne "A2").transcript
        = Except.ok true ∧
      processResponse engOracleA "A2" stateOne =
        (generateQuestion engOracleA (appendTurn stateOne "A2").transcript).map
          (nextTurn (appendTurn stateOne "A2")) ∧
      (∀ r, processResponse engOracleA "A2" stateOne = Except.ok r →
        r.is_complete = false ∧ r.done = false) ∧
      processResponse { engOracleA with verdict := fun _ _ => Except.ok "YES" } "A2" stateOne =
        processResponse { engOracleA with verdict := fun _ _ => Except.error "boom" } "A2"
          stateOne) :=
  ⟨by decide,
    interview_floor_continues engOracleA (fun _ _ => Except.ok "YES")
      (fun _ _ => Except.error "boom") stateOne "A2" (by decide)⟩

/-- C3: if the summary is produced but the continuation-verdict call
raises while the transcript length is 3 or 4, the continuation check
returns continue. -/
theorem verdict_error_fails_open (eng : Engine) (t : List QA) (s e : String)
    (hlen : t.length = 3 ∨ t.length = 4)
    (hsum : generateSummary eng t = Except.ok s)
    (hverd : eng.verdict s t.length = Except.error e) :
    shouldContinueInterview eng t = Except.ok true := by
  have h5 : ¬ (5 ≤ t.length) := by rcases hlen with h | h <;> omega
  have h3 : ¬ (t.length < 3) := by rcases hlen with h | h <;> omega
  unfold shouldContinueInterview
  rw [if_neg h5, if_neg h3, hsum]
  simp [Except.bind, hverd]

/-- C3 witness: the theorem applied at a concrete three-turn transcript
with a raising verdict oracle. -/
theorem verdict_error_fails_open_witness :
    (([⟨"Q1", "A1"⟩, ⟨"Q2", "A2"⟩, ⟨"Q3", "A3"⟩] : List QA).length = 3 ∨
      ([⟨"Q1", "A1"⟩, ⟨"Q2", "A2"⟩, ⟨"Q3", "A3"⟩] : List QA).length = 4) ∧
    generateSummary engVerdictErr [⟨"Q1", "A1"⟩, ⟨"Q2", "A2"⟩, ⟨"Q3", "A3"⟩]
      = Except.ok "summary text" ∧
    engVerdictErr.verdict "summary text"
        ([⟨"Q1", "A1"⟩, ⟨"Q2", "A2"⟩, ⟨"Q3", "A3"⟩] : List QA).length
      = Except.error "GenerationError timeout" ∧
    shouldContinueInterview engVerdictErr [⟨"Q1", "A1"⟩, ⟨"Q2", "A2"⟩, ⟨"Q3", "A3"⟩]
      = Except.ok true :=
  ⟨Or.inl rfl, rfl, rfl,
    verdict_error_fails_open engVerdictErr _ "summary text" "GenerationError timeout"
      (Or.inl rfl) rfl rfl⟩

/-- C4: with transcript length (after the append) equal to 3 or 4, the
continuation check consults the verdict oracle on the generated summary
and stops exactly when the verdict text begins with an affirmative
token case-insensitively; accordingly a successful turn is complete
exactly under that condition. -/
theorem verdict_window_decides (eng : Engine) (st : InterviewState) (a s v : String)
    (hlen : st.transcript.length + 1 = 3 ∨ st.transcript.length + 1 = 4)
    (hsum : generateSummary eng (appendTurn st a).transcript = Except.ok s)
    (hverd : eng.verdict s (appendTurn st a).transcript.length = Except.ok v) :
    shouldContinueInterview eng (appendTurn st a).transcript =
      Except.ok (!beginsWithAffirmativeToken v) ∧
    (∀ r, processResponse eng a st = Except.ok r →
      r.is_complete = beginsWithAffirmativeToken v) := by
  have hlen2 : (appendTurn st a).transcript.length = st.transcript.length + 1 := by
    simp [appendTurn]
  have h5 : ¬ (5 ≤ (appendTurn st a).transcript.length) := by omega
  have h3 : ¬ ((appendTurn st a).transcript.length < 3) := by omega
  have hsc : shouldContinueInterview eng (appendTurn st a).transcript =
      Except.ok (!beginsWithAffirmativeToken v) := by
    unfold shouldContinueInterview
    rw [if_neg h5, if_neg h3, hsum]
    simp [Except.bind, hverd, beginsWithAffirmativeToken]
  refine ⟨hsc, ?_⟩
  intro r hr
  simp only [processResponse, hsc, Except.bind] at hr
  cases hb : beginsWithAffirmativeToken v with
  | true =>
    rw [hb] at hr
    cases hf : generateFinalDecision eng (appendTurn st a).transcript with
    | error e => rw [hf] at hr; simp [Except.map] at hr
    | ok fd =>
      rw [hf] at hr
      simp [Except.map] at hr
      rw [← hr]
      rfl
  | false =>
    rw [hb] at hr
    cases hq : generateQuestion eng (appendTurn st a).transcript with
    | error e => rw [hq] at hr; simp [Except.map] at hr
    | ok q =>
      rw [hq] at hr
      simp [Except.map] at hr
      rw [← hr]
      rfl

/-- C4 witness: the theorem applied at a concrete two-turn state whose
verdict oracle answers NO, so the interview continues. -/
theorem verdict_window_decides_witness :
    (stateTwo.transcript.length + 1 = 3 ∨ stateTwo.transcript.length + 1 = 4) ∧
    generateSummary engOracleA (appendTurn stateTwo "A3").transcript
      = Except.ok "summary text" ∧
    engOracleA.verdict "summary text" (appendTurn stateTwo "A3").transcript.length
      = Except.ok "NO" ∧
    (shouldContinueInterview engOracleA (appendTurn stateTwo "A3").transcript =
        Except.ok (!beginsWithAffirmativeToken "NO") ∧
      (∀ r, processResponse engOracleA "A3" stateTwo = Except.ok r →
        r.is_complete = beginsWithAffirmativeToken "NO")) :=
  ⟨Or.inl rfl, rfl, rfl,
    verdict_window_decides engOracleA stateTwo "A3" "summary text" "NO"
      (Or.inl rfl) rfl rfl⟩

/-- C8: serializing a message of a form the service stores (an AI or a
human message) to the flat dict and deserializing it back yields the
identical message. -/
theorem message_roundtrip (m : LCMessage) (h : isStoredMessageForm m = true) :
    deserializeMessage (serializeMessage m) = m := by
  cases m with
  | ai c => simp [serializeMessage, deserializeMessage]
  | human c => simp [serializeMessage, deserializeMessage]
  | other s => simp [isStoredMessageForm] at h

/-- C8 witness: the round trip at a concrete AI message. -/
theorem message_roundtrip_witness :
    isStoredMessageForm (LCMessage.ai "Why this university") = true ∧
    deserializeMessage (serializeMessage (LCMessage.ai "Why this university"))
      = LCMessage.ai "Why this university" :=
  ⟨rfl, message_roundtrip (LCMessage.ai "Why this university") rfl⟩

/-- C10: for any agent type other than the five known ones, the gate
reports requirements met with an empty missing list, for every profile
and work-experience input. -/
theorem unknown_agent_gate_open (p : UserProfile) (w : List WorkExperience)
    (agentType : String)
    (h1 : agentType ≠ "university_matcher")
    (h2 : agentType ≠ "document_helper")
    (h3 : agentType ≠ "exam_planner")
    (h4 : agentType ≠ "finance_planner")
    (h5 : agentType ≠ "visa_assistant") :
    checkAgentProfileRequirements p w agentType = ⟨true, []⟩ := by
  simp [checkAgentProfileRequirements, getProfileRequirementsForAgent,
    checkRequiredFields, h1, h2, h3, h4, h5]

/-- A profile with every field absent. -/
def profileEmpty : UserProfile := ⟨none, none, none, none, none, none, none, none⟩

/-- C10 witness: the gate at a concrete unknown agent type. -/
theorem unknown_agent_gate_open_witness :
    ("cooking_coach" ≠ "university_matcher" ∧ "cooking_coach" ≠ "document_helper" ∧
      "cooking_coach" ≠ "exam_planner" ∧ "cooking_coach" ≠ "finance_planner" ∧
      "cooking_coach" ≠ "visa_assistant") ∧
    checkAgentProfileRequirements profileEmpty [] "cooking_coach" = ⟨true, []⟩ :=
  ⟨⟨by decide, by decide, by decide, by decide, by decide⟩,
    unknown_agent_gate_open profileEmpty [] "cooking_coach"
      (by decide) (by decide) (by decide) (by decide) (by decide)⟩

/-- C7 counterexample: when no attempt finds the session, the sleep
delays actually performed are 0.5s and 0.75s only; the schedule is not
the claimed three-delay list 0.5s, 0.75s, 1.125s. -/
theorem retry_delays_counterexample :
    (verifySessionWithRetry (fun _ => none)).2 = [(1 : ℚ) / 2, 3 / 4] ∧
    (verifySessionWithRetry (fun _ => none)).2 ≠ [(1 : ℚ) / 2, 3 / 4, 9 / 8] := by
  constructor
  · show (verifyAux (fun _ => none) 3 0 (1 / 2)).2 = [(1 : ℚ) / 2, 3 / 4]
    norm_num [verifyAux]
  · intro hcontra
    have h2 : (verifySessionWithRetry (fun _ => none)).2.length = 2 := by
      norm_num [verifySessionWithRetry, verifyAux]
    rw [hcontra] at h2
    simp at h2

/-- C7 amended: on connection open the handler attempts the lookup up
to 3 times, sleeping 0.5s before the second attempt and 0.75s before
the third (multiplier 1.5, no sleep after the last attempt); it returns
the session as soon as an attempt finds it, and when no attempt does it
sends the not-found error frame, closes with the distinct code 4004,
and does not proceed. -/
theorem retry_resolve_amended (store : Nat → Option SessionRec) :
    ((store 0 = none ∧ store 1 = none ∧ store 2 = none) →
      verifySessionWithRetry store = (none, [(1 : ℚ) / 2, 3 / 4]) ∧
      (wsResolveSession store).1 =
        ⟨[("error", "Interview session not found")], some 4004, false⟩) ∧
    (∀ s, store 0 = some s →
      verifySessionWithRetry store = (some s, []) ∧
      (wsResolveSession store).1 = ⟨[], none, true⟩) ∧
    (∀ s, store 0 = none → store 1 = some s →
      verifySessionWithRetry store = (some s, [(1 : ℚ) / 2]) ∧
      (wsResolveSession store).1 = ⟨[], none, true⟩) ∧
    (∀ s, store 0 = none → store 1 = none → store 2 = some s →
      verifySessionWithRetry store = (some s, [(1 : ℚ) / 2, 3 / 4]) ∧
      (wsResolveSession store).1 = ⟨[], none, true⟩) := by
  refine ⟨?_, ?_, ?_, ?_⟩
  · rintro ⟨h0, h1, h2⟩
    have hv : verifySessionWithRetry store = (none, [(1 : ℚ) / 2, 3 / 4]) := by
      norm_num [verifySessionWithRetry, verifyAux, h0, h1, h2]
    exact ⟨hv, by simp [wsResolveSession, hv]⟩
  · intro s h0
    have hv : verifySessionWithRetry store = (some s, []) := by
      norm_num [verifySessionWithRetry, verifyAux, h0]
    exact ⟨hv, by simp [wsResolveSession, hv]⟩
  · intro s h0 h1
    have hv : verifySessionWithRetry store = (some s, [(1 : ℚ) / 2]) := by
      norm_num [verifySessionWithRetry, verifyAux, h0, h1]
    exact ⟨hv, by simp [wsResolveSession, hv]⟩
  · intro s h0 h1 h2
    have hv : verifySessionWithRetry store = (some s, [(1 : ℚ) / 2, 3 / 4]) := by
      norm_num [verifySessionWithRetry, verifyAux, h0, h1, h2]
    exact ⟨hv, by simp [wsResolveSession, hv]⟩

/-- C7 witness: the amended theorem applied to a store that never finds
the session. -/
theorem retry_resolve_amended_witness :
    ((fun _ : Nat => (none : Option SessionRec)) 0 = none ∧
      (fun _ : Nat => (none : Option SessionRec)) 1 = none ∧
      (fun _ : Nat => (none : Option SessionRec)) 2 = none) ∧
    (verifySessionWithRetry (fun _ => none) = (none, [(1 : ℚ) / 2, 3 / 4]) ∧
      (wsResolveSession (fun _ => none)).1 =
        ⟨[("error", "Interview session not found")], some 4004, false⟩) :=
  ⟨⟨rfl, rfl, rfl⟩, (retry_resolve_amended (fun _ => none)).1 ⟨rfl, rfl, rfl⟩⟩

/-- A completed session state: five answered questions, done flag set,
outcome recorded. -/
def stateDone : InterviewState :=
  { messages := [],
    transcript := [⟨"Q1", "A1"⟩, ⟨"Q2", "A2"⟩, ⟨"Q3", "A3"⟩, ⟨"Q4", "A4"⟩, ⟨"Q5", "A5"⟩],
    current_question := "Q5",
    summary := "", outcome := "REJECTED", done := true }

/-- A terminated (completed) session record with its message log. -/
def dbCompleted : DB :=
  { messages := [("system", "welcome"), ("final_decision", "REJECTED")],
    session :=
      { status := "completed",
        session_state := some stateDone,
        final_outcome := some "REJECTED" } }

/-- C5: a `user_response` on a completed (TERMINATED) session is not
rejected with an InvalidStateError and is not side-effect free: the
handler never consults the session status, commits the response
message, and even reruns the final-decision step, appending a second
final_decision message. -/
theorem terminated_session_replay_bug :
    (handleUserResponse engOracleA dbCompleted "I am ready").1.messages =
      dbCompleted.messages ++
        [("response", "I am ready"), ("final_decision", "APPROVED")] ∧
    (handleUserResponse engOracleA dbCompleted "I am ready").2 =
      [("final_decision", "APPROVED")] ∧
    (handleUserResponse engOracleA dbCompleted "I am ready").1.messages ≠
      dbCompleted.messages := by
  refine ⟨by decide, by decide, by decide⟩

/-- An active mid-interview session record holding `stateOne`. -/
def dbActive : DB :=
  { messages := [("system", "welcome"), ("question", "Q2")],
    session :=
      { status := "active",
        session_state := some stateOne,
        final_outcome := none } }

/-- An engine whose question-generation call raises. -/
def engQuestionErr : Engine :=
  { engOracleA with question := fun _ => Except.error "GenerationError quota" }

/-- C6: when question generation raises during a `user_response`, the
handler does reply with an error frame, but the session is not left
unmodified: the response message was already committed before the
service call, so the turn is not atomic. -/
theorem generation_error_partial_write_bug :
    handleUserResponse engQuestionErr dbActive "My uncle funds me" =
      ({ dbActive with
          messages := dbActive.messages ++ [("response", "My uncle funds me")] },
        [("error", "Error processing response: GenerationError quota")]) ∧
    (handleUserResponse engQuestionErr dbActive "My uncle funds me").1.messages ≠
      dbActive.messages := by
  refine ⟨by decide, by decide⟩

/-- A session that has its first question issued and not yet answered. -/
def stateFresh : InterviewState :=
  { messages := [⟨"ai", "Q1"⟩],
    transcript := [],
    current_question := "Q1",
    summary := "", outcome := "", done := false }

/-- The session record and log right after the first question. -/
def dbAwaiting : DB :=
  { messages := [("system", "welcome"), ("question", "Q1")],
    session :=
      { status := "active",
        session_state := some stateFresh,
        final_outcome := none } }

/-- C9 counterexample: a `start_interview` arriving while turn state
already exists does not re-issue the stored current question Q1; it
generates and replies a fresh question and overwrites the stored state,
appending the pair (Q1, empty answer) to the transcript. -/
theorem start_reissue_counterexample :
    (handleStartInterview engOracleA dbAwaiting).2 = [("question", "Q next")] ∧
    (handleStartInterview engOracleA dbAwaiting).2 ≠
      [("question", stateFresh.current_question)] ∧
    (handleStartInterview engOracleA dbAwaiting).1.session.session_state ≠
      some stateFresh := by
  refine ⟨by decide, by decide, by decide⟩

/-- Any successful turn step leaves the state transcript equal to the
incoming transcript extended by the (current question, answer) pair. -/
theorem processResponse_ok_transcript (eng : Engine) (a : String)
    (st : InterviewState) (t : TurnOutcome)
    (h : processResponse eng a st = Except.ok t) :
    t.state.transcript = st.transcript ++ [⟨st.current_question, a⟩] := by
  simp only [processResponse] at h
  cases hsc : shouldContinueInterview eng (appendTurn st a).transcript with
  | error e => rw [hsc] at h; simp [Except.bind] at h
  | ok sc =>
    rw [hsc] at h
    simp only [Except.bind] at h
    cases sc with
    | false =>
      simp only [Bool.not_false, if_pos] at h
      cases hf : generateFinalDecision eng (appendTurn st a).transcript with
      | error e => rw [hf] at h; simp [Except.map] at h
      | ok fd =>
        rw [hf] at h
        simp [Except.map] at h
        rw [← h]
        simp [finishTurn, appendTurn]
    | true =>
      simp only [Bool.not_true] at h
      simp only [Bool.false_eq_true, if_false] at h
      cases hq : generateQuestion eng (appendTurn st a).transcript with
      | error e => rw [hq] at h; simp [Except.map] at h
      | ok q =>
        rw [hq] at h
        simp [Except.map] at h
        rw [← h]
        simp [nextTurn, appendTurn]

/-- C9 amended: when a `start_interview` arrives and turn state exists,
the handler advances the interview with an empty user response: on a
successful service turn it saves and replies the newly produced content
as a question frame, overwrites the stored state, and that state has
the pair (stored current question, empty answer) appended to the
transcript — not a no-op re-issue of the existing question. -/
theorem start_with_state_advances (eng : Engine) (db : DB)
    (st : InterviewState) (r : ServiceReply)
    (hst : db.session.session_state = some st)
    (hr : continueInterview eng "" st = Except.ok r) :
    handleStartInterview eng db =
      ({ db with
          messages := db.messages ++ [("question", r.content)],
          session := { db.session with session_state := some r.state } },
        [("question", r.content)]) ∧
    r.state.transcript = st.transcript ++ [⟨st.current_question, ""⟩] := by
  constructor
  · simp [handleStartInterview, hst, hr]
  · simp only [continueInterview] at hr
    cases hp : processResponse eng "" st with
    | error e => rw [hp] at hr; simp [Except.map] at hr
    | ok t =>
      rw [hp] at hr
      simp [Except.map] at hr
      have ht := processResponse_ok_transcript eng "" st t hp
      rw [← hr]
      exact ht

/-- The service reply produced by the start-with-existing-state path at
the concrete inputs of the witness. -/
def replyAfterStart : ServiceReply :=
  ⟨"Q next",
    { messages := [⟨"ai", "Q1"⟩, ⟨"human", ""⟩, ⟨"ai", "Q next"⟩],
      transcript := [⟨"Q1", ""⟩],
      current_question := "Q next",
      summary := "", outcome := "", done := false },
    false⟩

/-- C9 witness: the amended theorem at the concrete awaiting-answer
session. -/
theorem start_with_state_advances_witness :
    dbAwaiting.session.session_state = some stateFresh ∧
    continueInterview engOracleA "" stateFresh = Except.ok replyAfterStart ∧
    (handleStartInterview engOracleA dbAwaiting =
      ({ dbAwaiting with
          messages := dbAwaiting.messages ++ [("question", replyAfterStart.content)],
          session := { dbAwaiting.session with
                        session_state := some replyAfterStart.state } },
        [("question", replyAfterStart.content)]) ∧
      replyAfterStart.state.transcript =
        stateFresh.transcript ++ [⟨stateFresh.current_question, ""⟩]) :=
  ⟨rfl, by rfl,
    start_with_state_advances engOracleA dbAwaiting stateFresh replyAfterStart rfl
      (by rfl)⟩
